import Mathlib

/-!
Shallow embedding of the DhanMunch "Catch the items!" minigame logic
(`src/constants.js` and the `useGameLogic` hook plus the `Bubble` drop
resolution in `src/App.jsx`).

The game session is modelled as a state record mutated by events:
`startGame` (the start/replay button), the one-second interval callback
(`tickTimer`), the game-over React effect (`gameOverCheck`), `spawnBubble`,
`handleDrop` and `handleMiss`.  The interval handle `gameTimerRef` is
modelled by the boolean `timerActive`: it is set when `startGame` installs
the interval and cleared by `clearInterval` (inside the tick callback when
the timer hits zero, and in the game-over effect).  Randomness
(`Math.random` item choice, `Date.now()` in bubble ids) is supplied as
event data.  JS numbers holding integer values are modelled as `Int`
(scores, timer, spawn rate) or `Nat` (the bubble id counter); screen
coordinates in the drop-resolution geometry are modelled as `ℚ`.
-/

namespace DhanMunch

/-- The `category` field of catalog items: `"income"` or `"expense"`. -/
inductive Category where
  | income
  | expense
deriving DecidableEq, Repr

/-- A catalog entry of `GAME_ITEMS` in `src/constants.js`. -/
structure Item where
  id : String
  category : Category
  emoji : String
  label : String
deriving DecidableEq, Repr

/-- `GAME_DURATION = 60` (seconds). -/
def GAME_DURATION : Int := 60

/-- `INITIAL_SPAWN_RATE = 2000` (ms). -/
def INITIAL_SPAWN_RATE : Int := 2000

/-- `MIN_SPAWN_RATE = 500` (ms). -/
def MIN_SPAWN_RATE : Int := 500

/-- `SPAWN_RATE_ACCELERATION = 50` (ms decrease per spawn). -/
def SPAWN_RATE_ACCELERATION : Int := 50

/-- The static item catalog `GAME_ITEMS` of `src/constants.js`. -/
def GAME_ITEMS : List Item :=
  [ { id := "salary", category := Category.income, emoji := "💰", label := "Salary" },
    { id := "bonus", category := Category.income, emoji := "🎁", label := "Bonus" },
    { id := "investment", category := Category.income, emoji := "📈", label := "Investment" },
    { id := "freelance", category := Category.income, emoji := "💻", label := "Freelance" },
    { id := "food", category := Category.expense, emoji := "🍕", label := "Food" },
    { id := "hotel", category := Category.expense, emoji := "🏨", label := "Hotel" },
    { id := "shopping", category := Category.expense, emoji := "🛍️", label := "Shopping" },
    { id := "gas", category := Category.expense, emoji := "⛽", label := "Gas" },
    { id := "bills", category := Category.expense, emoji := "📱", label := "Bills" } ]

/-- The shape of the `POINTS` table of `src/constants.js`. -/
structure PointsTable where
  CORRECT : Int
  INCORRECT : Int
  MISSED : Int
deriving DecidableEq, Repr

/-- `POINTS = { CORRECT: 10, INCORRECT: -5, MISSED: -2 }`. -/
def POINTS : PointsTable := { CORRECT := 10, INCORRECT := -5, MISSED := -2 }

/-- The instance identifier of a spawned bubble.  The code builds the id
string as `bubble-N-T` from the pre-incremented counter `N` and
`Date.now()` timestamp `T`; since the two decimal components are recovered
uniquely from the string, string equality of ids coincides with equality of
this pair. -/
structure BubbleId where
  counter : Nat
  time : Nat
deriving DecidableEq, Repr

/-- A spawned bubble: the spread `{...randomItem, id}` of `spawnBubble`,
i.e. a catalog item together with an instance id. -/
structure Bubble where
  item : Item
  id : BubbleId
deriving DecidableEq, Repr

/-- The `score` state: `{ income, expense }`. -/
structure Score where
  income : Int
  expense : Int
deriving DecidableEq, Repr

/-- Dynamic field read `prev[binType]`. -/
def Score.get (sc : Score) : Category → Int
  | Category.income => sc.income
  | Category.expense => sc.expense

/-- The spread update `{ ...prev, [binType]: v }`: only the selected
category changes. -/
def Score.set (sc : Score) : Category → Int → Score
  | Category.income, v => { sc with income := v }
  | Category.expense, v => { sc with expense := v }

/-- `gameState`: `"idle" | "playing" | "gameOver"`. -/
inductive GState where
  | idle
  | playing
  | gameOver
deriving DecidableEq, Repr

/-- The mutable session state of `useGameLogic`: the React state cells
(`gameState`, `bubbles`, `score`, `timer`) and the refs (`spawnRate`,
`bubbleIdCounter`); `timerActive` models whether the `setInterval` handle
in `gameTimerRef` is installed and not yet cleared. -/
structure GameSt where
  gameState : GState
  bubbles : List Bubble
  score : Score
  timer : Int
  spawnRate : Int
  bubbleIdCounter : Nat
  timerActive : Bool
deriving DecidableEq, Repr

/-- The initial hook state: `useState("idle")`, `useState([])`,
`useState({income: 0, expense: 0})`, `useState(GAME_DURATION)`,
`useRef(INITIAL_SPAWN_RATE)`, `useRef(0)`; no interval installed. -/
def initState : GameSt :=
  { gameState := GState.idle
    bubbles := []
    score := { income := 0, expense := 0 }
    timer := GAME_DURATION
    spawnRate := INITIAL_SPAWN_RATE
    bubbleIdCounter := 0
    timerActive := false }

/-- `spawnBubble` (App.jsx lines 53-70): bail out unless playing; pick a
random catalog item (the index is event data here), append a bubble whose
id uses the pre-incremented counter and the current `Date.now()`, and
decrease the spawn rate by `SPAWN_RATE_ACCELERATION` floored at
`MIN_SPAWN_RATE`. -/
def spawnBubble (idx : Fin GAME_ITEMS.length) (time : Nat) (s : GameSt) : GameSt :=
  if s.gameState ≠ GState.playing then s
  else
    let randomItem := GAME_ITEMS.get idx
    let newBubble : Bubble :=
      { item := randomItem, id := { counter := s.bubbleIdCounter + 1, time := time } }
    { s with
      bubbles := s.bubbles ++ [newBubble]
      bubbleIdCounter := s.bubbleIdCounter + 1
      spawnRate := max MIN_SPAWN_RATE (s.spawnRate - SPAWN_RATE_ACCELERATION) }

/-- `startGame` (App.jsx lines 72-81): clear the old timers, set state to
playing, zero both scores, empty the bubbles, reset the timer, the spawn
rate and the id counter, and install a fresh one-second interval. -/
def startGame (_s : GameSt) : GameSt :=
  { gameState := GState.playing
    bubbles := []
    score := { income := 0, expense := 0 }
    timer := GAME_DURATION
    spawnRate := INITIAL_SPAWN_RATE
    bubbleIdCounter := 0
    timerActive := true }

/-- The `setInterval` callback installed by `startGame` (lines 83-92): it
can only fire while the interval is installed; `prev <= 1` clamps to `0`
and clears the interval, otherwise the timer drops by one. -/
def tickTimer (s : GameSt) : GameSt :=
  if s.timerActive then
    if s.timer ≤ 1 then { s with timer := 0, timerActive := false }
    else { s with timer := s.timer - 1 }
  else s

/-- The game-over React effect (lines 104-112): when `timer <= 0 &&
gameState === "playing"`, set state to gameOver, clear the timers and empty
the bubbles (the sound cue is a non-state side effect). -/
def gameOverCheck (s : GameSt) : GameSt :=
  if s.timer ≤ 0 ∧ s.gameState = GState.playing then
    { s with gameState := GState.gameOver, bubbles := [], timerActive := false }
  else s

/-- `handleDrop` (lines 114-130): remove the bubble by id, then on a
category match add `POINTS.CORRECT` to the bin's score (no clamp), else set
the bin's score to `max 0 (prev + POINTS.INCORRECT)`.  Note: the handler
does not consult `gameState`. -/
def handleDrop (item : Bubble) (binType : Category) (s : GameSt) : GameSt :=
  let s1 := { s with bubbles := s.bubbles.filter (fun b => decide (b.id ≠ item.id)) }
  if item.item.category = binType then
    { s1 with score := s1.score.set binType (s1.score.get binType + POINTS.CORRECT) }
  else
    { s1 with score := s1.score.set binType (max 0 (s1.score.get binType + POINTS.INCORRECT)) }

/-- `handleMiss` (lines 132-138): remove the bubble by id and set the
item's own category score to `max 0 (prev + POINTS.MISSED)`. -/
def handleMiss (item : Bubble) (s : GameSt) : GameSt :=
  { s with
    bubbles := s.bubbles.filter (fun b => decide (b.id ≠ item.id))
    score := s.score.set item.item.category (max 0 (s.score.get item.item.category + POINTS.MISSED)) }

/-- An axis-aligned rectangle as returned by `getBoundingClientRect()`. -/
structure Rect where
  left : ℚ
  right : ℚ
  top : ℚ
  bottom : ℚ
deriving DecidableEq, Repr

/-- The containment test of `handleDragEnd`:
`x >= left && x <= right && y >= top && y <= bottom`. -/
def Rect.containsPoint (r : Rect) (x y : ℚ) : Bool :=
  decide (r.left ≤ x) && decide (x ≤ r.right) && decide (r.top ≤ y) && decide (y ≤ r.bottom)

/-- The bin-resolution part of `handleDragEnd` (lines 158-194): test the
income rectangle first (when its ref is non-null), and only if that did not
match (`!droppedBin`) test the expense rectangle. -/
def resolveDrop (incomeRect expenseRect : Option Rect) (x y : ℚ) : Option Category :=
  let droppedBin : Option Category :=
    match incomeRect with
    | some r => if r.containsPoint x y then some Category.income else none
    | none => none
  match droppedBin with
  | some b => some b
  | none =>
    match expenseRect with
    | some r => if r.containsPoint x y then some Category.expense else none
    | none => none

/-- The tail of `handleDragEnd`: a resolved bin goes to `onDrop`, otherwise
the release is a miss handled by `onMiss`. -/
def handleDragEnd (incomeRect expenseRect : Option Rect) (x y : ℚ)
    (item : Bubble) (s : GameSt) : GameSt :=
  match resolveDrop incomeRect expenseRect x y with
  | some droppedBin => handleDrop item droppedBin s
  | none => handleMiss item s

/-- The events that mutate the session state.  `spawn` carries the random
catalog index and the `Date.now()` timestamp; `drop` and `miss` carry the
bubble handed to the callback (and for `drop` the resolved bin). -/
inductive Ev where
  | start
  | tick
  | gameOverSignal
  | spawn (idx : Fin GAME_ITEMS.length) (time : Nat)
  | drop (item : Bubble) (binType : Category)
  | miss (item : Bubble)

/-- Dispatch one event to its handler. -/
def step (s : GameSt) : Ev → GameSt
  | Ev.start => startGame s
  | Ev.tick => tickTimer s
  | Ev.gameOverSignal => gameOverCheck s
  | Ev.spawn idx t => spawnBubble idx t s
  | Ev.drop item bin => handleDrop item bin s
  | Ev.miss item => handleMiss item s

/-- Run an event trace from the initial hook state. -/
def run (es : List Ev) : GameSt := es.foldl step initState

/-- A session state is reachable when some event trace produces it. -/
def Reachable (s : GameSt) : Prop := ∃ es : List Ev, run es = s

/-- The inductive invariant of the session: both category scores are
non-negative, the timer is non-negative (and at least one whenever the
interval is still installed, which also forces the playing state), the
spawn rate never falls below the configured minimum, bubble ids are
pairwise distinct, and every bubble's counter component is bounded by the
current counter. -/
def Inv (s : GameSt) : Prop :=
  0 ≤ s.score.income ∧ 0 ≤ s.score.expense ∧
  0 ≤ s.timer ∧
  (s.timerActive = true → 1 ≤ s.timer ∧ s.gameState = GState.playing) ∧
  MIN_SPAWN_RATE ≤ s.spawnRate ∧
  s.bubbles.Pairwise (fun a b => a.id ≠ b.id) ∧
  (∀ b ∈ s.bubbles, b.id.counter ≤ s.bubbleIdCounter)

lemma inv_initState : Inv initState := by
  refine ⟨by simp [initState], by simp [initState], by norm_num [initState, GAME_DURATION],
    by simp [initState], by norm_num [initState, MIN_SPAWN_RATE, INITIAL_SPAWN_RATE],
    by simp [initState], by simp [initState]⟩

lemma inv_startGame (s : GameSt) : Inv (startGame s) := by
  refine ⟨by simp [startGame], by simp [startGame], by norm_num [startGame, GAME_DURATION],
    ?_, by norm_num [startGame, MIN_SPAWN_RATE, INITIAL_SPAWN_RATE],
    by simp [startGame], by simp [startGame]⟩
  intro _
  exact ⟨by norm_num [startGame, GAME_DURATION], rfl⟩

lemma inv_tickTimer (s : GameSt) (h : Inv s) : Inv (tickTimer s) := by
  obtain ⟨h1, h2, h3, h4, h5, h6, h7⟩ := h
  unfold tickTimer
  by_cases ha : s.timerActive
  · obtain ⟨ht1, hgp⟩ := h4 ha
    rw [if_pos ha]
    by_cases ht : s.timer ≤ 1
    · rw [if_pos ht]
      exact ⟨h1, h2, le_refl 0, by simp, h5, h6, h7⟩
    · rw [if_neg ht]
      refine ⟨h1, h2, by simp; omega, ?_, h5, h6, h7⟩
      intro _
      exact ⟨by simp; omega, hgp⟩
  · rw [if_neg ha]
    exact ⟨h1, h2, h3, h4, h5, h6, h7⟩

lemma inv_gameOverCheck (s : GameSt) (h : Inv s) : Inv (gameOverCheck s) := by
  obtain ⟨h1, h2, h3, h4, h5, h6, h7⟩ := h
  unfold gameOverCheck
  by_cases hc : s.timer ≤ 0 ∧ s.gameState = GState.playing
  · rw [if_pos hc]
    exact ⟨h1, h2, h3, by simp, h5, by simp, by simp⟩
  · rw [if_neg hc]
    exact ⟨h1, h2, h3, h4, h5, h6, h7⟩

lemma inv_spawnBubble (idx : Fin GAME_ITEMS.length) (t : Nat) (s : GameSt) (h : Inv s) :
    Inv (spawnBubble idx t s) := by
  obtain ⟨h1, h2, h3, h4, h5, h6, h7⟩ := h
  unfold spawnBubble
  by_cases hg : s.gameState ≠ GState.playing
  · rw [if_pos hg]
    exact ⟨h1, h2, h3, h4, h5, h6, h7⟩
  · rw [if_neg hg]
    refine ⟨h1, h2, h3, h4, le_max_left _ _, ?_, ?_⟩
    · rw [List.pairwise_append]
      refine ⟨h6, by simp, ?_⟩
      intro a ha b hb
      simp only [List.mem_singleton] at hb
      subst hb
      intro heq
      have hle := h7 a ha
      rw [heq] at hle
      simp at hle
    · intro b hb
      rcases List.mem_append.mp hb with hb | hb
      · exact Nat.le_succ_of_le (h7 b hb)
      · simp only [List.mem_singleton] at hb
        subst hb
        simp

lemma inv_handleDrop (item : Bubble) (binType : Category) (s : GameSt) (h : Inv s) :
    Inv (handleDrop item binType s) := by
  obtain ⟨h1, h2, h3, h4, h5, h6, h7⟩ := h
  have hp : (s.bubbles.filter (fun b => decide (b.id ≠ item.id))).Pairwise
      (fun a b => a.id ≠ b.id) := h6.sublist (List.filter_sublist s.bubbles)
  have hm : ∀ b ∈ s.bubbles.filter (fun b => decide (b.id ≠ item.id)),
      b.id.counter ≤ s.bubbleIdCounter :=
    fun b hb => h7 b (List.mem_of_mem_filter hb)
  unfold handleDrop
  by_cases hc : item.item.category = binType
  · rw [if_pos hc]
    cases binType with
    | income =>
      refine ⟨?_, h2, h3, h4, h5, hp, hm⟩
      simp [Score.set, Score.get, POINTS]
      omega
    | expense =>
      refine ⟨h1, ?_, h3, h4, h5, hp, hm⟩
      simp [Score.set, Score.get, POINTS]
      omega
  · rw [if_neg hc]
    cases binType with
    | income =>
      refine ⟨?_, h2, h3, h4, h5, hp, hm⟩
      simp [Score.set, Score.get, POINTS]
    | expense =>
      refine ⟨h1, ?_, h3, h4, h5, hp, hm⟩
      simp [Score.set, Score.get, POINTS]

lemma inv_handleMiss (item : Bubble) (s : GameSt) (h : Inv s) : Inv (handleMiss item s) := by
  obtain ⟨h1, h2, h3, h4, h5, h6, h7⟩ := h
  have hp : (s.bubbles.filter (fun b => decide (b.id ≠ item.id))).Pairwise
      (fun a b => a.id ≠ b.id) := h6.sublist (List.filter_sublist s.bubbles)
  have hm : ∀ b ∈ s.bubbles.filter (fun b => decide (b.id ≠ item.id)),
      b.id.counter ≤ s.bubbleIdCounter :=
    fun b hb => h7 b (List.mem_of_mem_filter hb)
  unfold handleMiss
  cases hic : item.item.category with
  | income =>
    refine ⟨?_, h2, h3, h4, h5, hp, hm⟩
    simp [Score.set, Score.get, POINTS]
  | expense =>
    refine ⟨h1, ?_, h3, h4, h5, hp, hm⟩
    simp [Score.set, Score.get, POINTS]

lemma inv_step (s : GameSt) (e : Ev) (h : Inv s) : Inv (step s e) := by
  cases e with
  | start => exact inv_startGame s
  | tick => exact inv_tickTimer s h
  | gameOverSignal => exact inv_gameOverCheck s h
  | spawn idx t => exact inv_spawnBubble idx t s h
  | drop item binType => exact inv_handleDrop item binType s h
  | miss item => exact inv_handleMiss item s h

lemma inv_foldl (es : List Ev) (s : GameSt) (h : Inv s) : Inv (es.foldl step s) := by
  induction es generalizing s with
  | nil => exact h
  | cons e es ih => exact ih (step s e) (inv_step s e h)

lemma reachable_inv (s : GameSt) (h : Reachable s) : Inv s := by
  obtain ⟨es, rfl⟩ := h
  exact inv_foldl es initState inv_initState

/-- A concrete spawned bubble (the first catalog item, counter 1). -/
def sampleBubble : Bubble :=
  { item := { id := "salary", category := Category.income, emoji := "💰", label := "Salary" }
    id := { counter := 1, time := 0 } }

/-- The index of the first catalog item, used as concrete spawn data. -/
def firstItemIdx : Fin GAME_ITEMS.length := ⟨0, by decide⟩

lemma countP_le_one_of_pairwise_ne (l : List Bubble)
    (hp : l.Pairwise (fun a b => a.id ≠ b.id)) (i : BubbleId) :
    l.countP (fun b => decide (b.id = i)) ≤ 1 := by
  induction l with
  | nil => simp
  | cons a l ih =>
    obtain ⟨ha, hl⟩ := List.pairwise_cons.mp hp
    rw [List.countP_cons]
    by_cases h : a.id = i
    · have hz : l.countP (fun b => decide (b.id = i)) = 0 := by
        rw [List.countP_eq_zero]
        intro b hb
        simp only [decide_eq_true_eq]
        intro hbi
        exact ha b hb (h.trans hbi.symm)
      simp [hz, h]
    · have hd : decide (a.id = i) = false := by simp [h]
      simp only [hd]
      simpa using ih hl

lemma length_eq_countP_id_split (l : List Bubble) (i : BubbleId) :
    l.length = l.countP (fun b => decide (b.id = i)) + l.countP (fun b => decide (b.id ≠ i)) := by
  induction l with
  | nil => rfl
  | cons a l ih =>
    simp only [List.countP_cons, List.length_cons, ih]
    by_cases h : a.id = i
    · simp [h]
      omega
    · simp [h]
      omega

lemma filter_ne_length_ge (l : List Bubble) (hp : l.Pairwise (fun a b => a.id ≠ b.id))
    (i : BubbleId) :
    l.length ≤ (l.filter (fun b => decide (b.id ≠ i))).length + 1 := by
  have hsplit := length_eq_countP_id_split l i
  have hfl : (l.filter (fun b => decide (b.id ≠ i))).length =
      l.countP (fun b => decide (b.id ≠ i)) :=
    (List.countP_eq_length_filter _ _).symm
  have hc := countP_le_one_of_pairwise_ne l hp i
  omega

/-- Claim C1: the scoring policy is the fixed table of `POINTS`: a drop
whose item category equals the target bin's category adds exactly 10 to
that category's score with no clamping; a drop into the wrong bin sets the
bin's category score to `max 0 (prior - 5)`; a miss (no bin hit, or fall
completed uncaught — both routed to `handleMiss`) sets the item's own
category score to `max 0 (prior - 2)`. -/
theorem scoring_policy_table (s : GameSt) (item : Bubble) (binType : Category) :
    (handleDrop item binType s).score.get binType =
      (if item.item.category = binType then s.score.get binType + 10
       else max 0 (s.score.get binType - 5))
    ∧ (handleMiss item s).score.get item.item.category =
      max 0 (s.score.get item.item.category - 2) := by
  constructor
  · unfold handleDrop
    by_cases hc : item.item.category = binType
    · rw [if_pos hc, if_pos hc]
      cases binType <;> simp [Score.set, Score.get, POINTS]
    · rw [if_neg hc, if_neg hc]
      cases binType <;> simp [Score.set, Score.get, POINTS] <;> omega
  · unfold handleMiss
    cases hic : item.item.category <;> simp [Score.set, Score.get, POINTS] <;> omega

/-- Claim C2: in every reachable session state both per-category scores are
non-negative, hence so is the total score. -/
theorem score_nonneg_invariant (s : GameSt) (hr : Reachable s) :
    0 ≤ s.score.income ∧ 0 ≤ s.score.expense ∧ 0 ≤ s.score.income + s.score.expense := by
  obtain ⟨h1, h2, -⟩ := reachable_inv s hr
  exact ⟨h1, h2, by omega⟩

/-- Witness for C2 at the reachable state after pressing start. -/
theorem score_nonneg_invariant_witness :
    0 ≤ (run [Ev.start]).score.income ∧ 0 ≤ (run [Ev.start]).score.expense
    ∧ 0 ≤ (run [Ev.start]).score.income + (run [Ev.start]).score.expense :=
  score_nonneg_invariant (run [Ev.start]) ⟨[Ev.start], rfl⟩

/-- Claim C3: drop resolution tests the release point against the income
rectangle first; if contained the target is income (in particular a point
inside both overlapping rectangles resolves to income), otherwise the
expense rectangle decides, and if neither contains the point the release is
handled as a miss. -/
theorem drop_resolution_order (ir er : Rect) (x y : ℚ) (item : Bubble) (s : GameSt) :
    (ir.containsPoint x y = true →
      resolveDrop (some ir) (some er) x y = some Category.income)
    ∧ (ir.containsPoint x y = false → er.containsPoint x y = true →
      resolveDrop (some ir) (some er) x y = some Category.expense)
    ∧ (ir.containsPoint x y = false → er.containsPoint x y = false →
      resolveDrop (some ir) (some er) x y = none
      ∧ handleDragEnd (some ir) (some er) x y item s = handleMiss item s) := by
  refine ⟨?_, ?_, ?_⟩
  · intro h1
    simp [resolveDrop, h1]
  · intro h1 h2
    simp [resolveDrop, h1, h2]
  · intro h1 h2
    constructor
    · simp [resolveDrop, h1, h2]
    · simp [handleDragEnd, resolveDrop, h1, h2]

/-- Witness for C3: a point in both overlapping rectangles resolves to
income, a point only in the expense rectangle resolves to expense, and a
point in neither resolves to no bin. -/
theorem drop_resolution_order_witness :
    resolveDrop (some ⟨0, 10, 0, 10⟩) (some ⟨5, 20, 0, 10⟩) 7 5 = some Category.income
    ∧ resolveDrop (some ⟨0, 10, 0, 10⟩) (some ⟨5, 20, 0, 10⟩) 15 5 = some Category.expense
    ∧ resolveDrop (some ⟨0, 10, 0, 10⟩) (some ⟨5, 20, 0, 10⟩) 100 100 = none :=
  ⟨(drop_resolution_order ⟨0, 10, 0, 10⟩ ⟨5, 20, 0, 10⟩ 7 5 sampleBubble initState).1
      (by decide),
   (drop_resolution_order ⟨0, 10, 0, 10⟩ ⟨5, 20, 0, 10⟩ 15 5 sampleBubble initState).2.1
      (by decide) (by decide),
   ((drop_resolution_order ⟨0, 10, 0, 10⟩ ⟨5, 20, 0, 10⟩ 100 100 sampleBubble initState).2.2
      (by decide) (by decide)).1⟩

/-- Claim C4: `startGame`, invoked from any state, sets the state to
playing, zeroes both category scores, empties the active bubble set,
resets the timer to the full `GAME_DURATION`, and resets the spawn
interval to `INITIAL_SPAWN_RATE`. -/
theorem startGame_resets (s : GameSt) :
    (startGame s).gameState = GState.playing
    ∧ (startGame s).score = { income := 0, expense := 0 }
    ∧ (startGame s).bubbles = []
    ∧ (startGame s).timer = GAME_DURATION
    ∧ (startGame s).spawnRate = INITIAL_SPAWN_RATE :=
  ⟨rfl, rfl, rfl, rfl, rfl⟩

/-- Claim C5: whenever the timer has reached 0 while the state is playing,
the game-over effect moves the state to gameOver and empties the active
bubble set. -/
theorem gameOver_on_timer_zero (s : GameSt) (ht : s.timer ≤ 0)
    (hg : s.gameState = GState.playing) :
    (gameOverCheck s).gameState = GState.gameOver ∧ (gameOverCheck s).bubbles = [] := by
  unfold gameOverCheck
  rw [if_pos ⟨ht, hg⟩]
  exact ⟨rfl, rfl⟩

set_option maxRecDepth 4000 in
/-- Witness for C5 at the reachable state after a full session of 60
ticks. -/
theorem gameOver_on_timer_zero_witness :
    (gameOverCheck (run (Ev.start :: List.replicate 60 Ev.tick))).gameState = GState.gameOver
    ∧ (gameOverCheck (run (Ev.start :: List.replicate 60 Ev.tick))).bubbles = [] :=
  gameOver_on_timer_zero (run (Ev.start :: List.replicate 60 Ev.tick))
    (by decide) (by decide)

/-- Claim C6: in every reachable state the timer is non-negative, and
whenever the one-second interval is installed (so a tick can actually
fire, which only happens while playing) the tick decreases the timer by
exactly 1, the result is non-negative, and a timer at or below 1 clamps
to exactly 0. -/
theorem timer_tick_behaviour (s : GameSt) (hr : Reachable s) :
    0 ≤ s.timer
    ∧ (s.timerActive = true →
        s.gameState = GState.playing
        ∧ (tickTimer s).timer = s.timer - 1
        ∧ 0 ≤ (tickTimer s).timer
        ∧ (s.timer ≤ 1 → (tickTimer s).timer = 0)) := by
  obtain ⟨-, -, h3, h4, -⟩ := reachable_inv s hr
  refine ⟨h3, fun ha => ?_⟩
  obtain ⟨ht1, hgp⟩ := h4 ha
  unfold tickTimer
  rw [if_pos ha]
  by_cases ht : s.timer ≤ 1
  · rw [if_pos ht]
    have he : s.timer = 1 := le_antisymm ht ht1
    exact ⟨hgp, by simp [he], by simp, fun _ => rfl⟩
  · rw [if_neg ht]
    exact ⟨hgp, rfl, by simp; omega, fun hcon => absurd hcon ht⟩

/-- Witness for C6 at the reachable state right after start (timer 60,
interval installed). -/
theorem timer_tick_behaviour_witness :
    (run [Ev.start]).gameState = GState.playing
    ∧ (tickTimer (run [Ev.start])).timer = (run [Ev.start]).timer - 1
    ∧ 0 ≤ (tickTimer (run [Ev.start])).timer
    ∧ ((run [Ev.start]).timer ≤ 1 → (tickTimer (run [Ev.start])).timer = 0) :=
  (timer_tick_behaviour (run [Ev.start]) ⟨[Ev.start], rfl⟩).2 rfl

/-- Claim C7: in every reachable state the spawn interval is at least
`MIN_SPAWN_RATE`; a spawn while playing sets it to exactly
`max MIN_SPAWN_RATE (prior - SPAWN_RATE_ACCELERATION)`; a spawn never
increases it and keeps it at least the minimum; and no event other than
the session-resetting start increases it, so it is non-increasing over a
session. -/
theorem spawn_rate_invariant (s : GameSt) (hr : Reachable s)
    (idx : Fin GAME_ITEMS.length) (t : Nat) :
    MIN_SPAWN_RATE ≤ s.spawnRate
    ∧ (s.gameState = GState.playing →
        (spawnBubble idx t s).spawnRate =
          max MIN_SPAWN_RATE (s.spawnRate - SPAWN_RATE_ACCELERATION))
    ∧ (spawnBubble idx t s).spawnRate ≤ s.spawnRate
    ∧ MIN_SPAWN_RATE ≤ (spawnBubble idx t s).spawnRate
    ∧ (∀ e : Ev, e ≠ Ev.start → (step s e).spawnRate ≤ s.spawnRate) := by
  obtain ⟨-, -, -, -, h5, -⟩ := reachable_inv s hr
  have hstep : ∀ i2 t2, (spawnBubble i2 t2 s).spawnRate ≤ s.spawnRate := by
    intro i2 t2
    unfold spawnBubble
    by_cases hg : s.gameState ≠ GState.playing
    · rw [if_pos hg]
    · rw [if_neg hg]
      show max MIN_SPAWN_RATE (s.spawnRate - SPAWN_RATE_ACCELERATION) ≤ s.spawnRate
      have : (0 : Int) ≤ SPAWN_RATE_ACCELERATION := by norm_num [SPAWN_RATE_ACCELERATION]
      omega
  have hmin : ∀ i2 t2, MIN_SPAWN_RATE ≤ (spawnBubble i2 t2 s).spawnRate := by
    intro i2 t2
    unfold spawnBubble
    by_cases hg : s.gameState ≠ GState.playing
    · rw [if_pos hg]; exact h5
    · rw [if_neg hg]
      exact le_max_left _ _
  refine ⟨h5, ?_, hstep idx t, hmin idx t, ?_⟩
  · intro hg
    unfold spawnBubble
    rw [if_neg (by simp [hg])]
  · intro e he
    cases e with
    | start => exact absurd rfl he
    | tick =>
      show (tickTimer s).spawnRate ≤ s.spawnRate
      unfold tickTimer
      split
      · split <;> exact le_refl _
      · exact le_refl _
    | gameOverSignal =>
      show (gameOverCheck s).spawnRate ≤ s.spawnRate
      unfold gameOverCheck
      split <;> exact le_refl _
    | spawn i2 t2 => exact hstep i2 t2
    | drop item binType =>
      show (handleDrop item binType s).spawnRate ≤ s.spawnRate
      unfold handleDrop
      split <;> exact le_refl _
    | miss item => exact le_refl _

/-- Witness for C7 at the reachable state right after start, spawning the
first catalog item. -/
theorem spawn_rate_invariant_witness :
    MIN_SPAWN_RATE ≤ (run [Ev.start]).spawnRate
    ∧ (spawnBubble firstItemIdx 0 (run [Ev.start])).spawnRate =
        max MIN_SPAWN_RATE ((run [Ev.start]).spawnRate - SPAWN_RATE_ACCELERATION)
    ∧ (spawnBubble firstItemIdx 0 (run [Ev.start])).spawnRate ≤ (run [Ev.start]).spawnRate := by
  have h := spawn_rate_invariant (run [Ev.start]) ⟨[Ev.start], rfl⟩ firstItemIdx 0
  exact ⟨h.1, h.2.1 rfl, h.2.2.1⟩

/-- Counterexample for C8: the claim that a drop issued while the session
is not playing leaves the entire session state unchanged is false: in the
reachable idle state, dropping an income item on the income bin raises the
income score from 0 to 10. -/
theorem drop_while_idle_changes_state :
    initState.gameState = GState.idle
    ∧ Reachable initState
    ∧ handleDrop sampleBubble Category.income initState ≠ initState
    ∧ (handleDrop sampleBubble Category.income initState).score.income = 10 :=
  ⟨rfl, ⟨[], rfl⟩, by decide, rfl⟩

/-- Claim C8 amended: a drop command processed while the session state is
not playing raises no error, but it is not ignored: `handleDrop` never
consults the session state, so it removes the item's id from the active
set (a no-op when absent) and applies the scoring table exactly as during
play; only the scores and active set can change — the state and timer are
untouched. -/
theorem drop_not_guarded_by_state (s : GameSt) (item : Bubble) (binType : Category)
    (_h : s.gameState ≠ GState.playing) :
    (handleDrop item binType s).gameState = s.gameState
    ∧ (handleDrop item binType s).timer = s.timer
    ∧ (handleDrop item binType s).bubbles =
        s.bubbles.filter (fun b => decide (b.id ≠ item.id))
    ∧ (handleDrop item binType s).score.get binType =
        (if item.item.category = binType then s.score.get binType + 10
         else max 0 (s.score.get binType - 5)) := by
  refine ⟨?_, ?_, ?_, ?_⟩
  · unfold handleDrop
    split <;> rfl
  · unfold handleDrop
    split <;> rfl
  · unfold handleDrop
    split <;> rfl
  · unfold handleDrop
    by_cases hc : item.item.category = binType
    · rw [if_pos hc, if_pos hc]
      cases binType <;> simp [Score.set, Score.get, POINTS]
    · rw [if_neg hc, if_neg hc]
      cases binType <;> simp [Score.set, Score.get, POINTS] <;> omega

/-- Witness for the amended C8 in the idle initial state. -/
theorem drop_not_guarded_by_state_witness :
    (handleDrop sampleBubble Category.expense initState).gameState = initState.gameState
    ∧ (handleDrop sampleBubble Category.expense initState).timer = initState.timer
    ∧ (handleDrop sampleBubble Category.expense initState).bubbles =
        initState.bubbles.filter (fun b => decide (b.id ≠ sampleBubble.id))
    ∧ (handleDrop sampleBubble Category.expense initState).score.get Category.expense =
        (if sampleBubble.item.category = Category.expense then
          initState.score.get Category.expense + 10
         else max 0 (initState.score.get Category.expense - 5)) :=
  drop_not_guarded_by_state initState sampleBubble Category.expense (by decide)

/-- Claim C9: the only state transitions any event can cause are
idle → playing on start, playing → gameOver from the game-over effect when
the timer has reached zero, and gameOver → playing on start (replay). -/
theorem game_state_transitions (s : GameSt) (e : Ev)
    (h : (step s e).gameState ≠ s.gameState) :
    (s.gameState = GState.idle ∧ (step s e).gameState = GState.playing ∧ e = Ev.start)
    ∨ (s.gameState = GState.playing ∧ (step s e).gameState = GState.gameOver
        ∧ e = Ev.gameOverSignal ∧ s.timer ≤ 0)
    ∨ (s.gameState = GState.gameOver ∧ (step s e).gameState = GState.playing
        ∧ e = Ev.start) := by
  cases e with
  | start =>
    cases hg : s.gameState with
    | idle => exact Or.inl ⟨rfl, rfl, rfl⟩
    | playing =>
      rw [hg] at h
      exact absurd rfl h
    | gameOver => exact Or.inr (Or.inr ⟨rfl, rfl, rfl⟩)
  | tick =>
    exfalso
    apply h
    show (tickTimer s).gameState = s.gameState
    unfold tickTimer
    split
    · split <;> rfl
    · rfl
  | gameOverSignal =>
    by_cases hc : s.timer ≤ 0 ∧ s.gameState = GState.playing
    · refine Or.inr (Or.inl ⟨hc.2, ?_, rfl, hc.1⟩)
      show (gameOverCheck s).gameState = GState.gameOver
      unfold gameOverCheck
      rw [if_pos hc]
    · exfalso
      apply h
      show (gameOverCheck s).gameState = s.gameState
      unfold gameOverCheck
      rw [if_neg hc]
  | spawn idx t =>
    exfalso
    apply h
    show (spawnBubble idx t s).gameState = s.gameState
    unfold spawnBubble
    split <;> rfl
  | drop item binType =>
    exfalso
    apply h
    show (handleDrop item binType s).gameState = s.gameState
    unfold handleDrop
    split <;> rfl
  | miss item =>
    exfalso
    apply h
    rfl

/-- Witness for C9: the start event in the idle initial state changes the
state, and the disjunction resolves to the idle → playing arrow. -/
theorem game_state_transitions_witness :
    (initState.gameState = GState.idle
      ∧ (step initState Ev.start).gameState = GState.playing ∧ Ev.start = Ev.start)
    ∨ (initState.gameState = GState.playing
        ∧ (step initState Ev.start).gameState = GState.gameOver
        ∧ Ev.start = Ev.gameOverSignal ∧ initState.timer ≤ 0)
    ∨ (initState.gameState = GState.gameOver
        ∧ (step initState Ev.start).gameState = GState.playing ∧ Ev.start = Ev.start) :=
  game_state_transitions initState Ev.start (by decide)

/-- Claim C10: in every reachable state the active bubbles carry pairwise
distinct instance ids (the counter component strictly increases between
the resets that also clear the set), so at most one bubble matches any
given id and removal by id removes at most one bubble; a spawn while
playing increments the counter by exactly one. -/
theorem bubble_ids_distinct (s : GameSt) (hr : Reachable s) :
    s.bubbles.Pairwise (fun a b => a.id ≠ b.id)
    ∧ (∀ i : BubbleId, s.bubbles.countP (fun b => decide (b.id = i)) ≤ 1)
    ∧ (∀ i : BubbleId,
        s.bubbles.length ≤ (s.bubbles.filter (fun b => decide (b.id ≠ i))).length + 1)
    ∧ (∀ (idx : Fin GAME_ITEMS.length) (t : Nat), s.gameState = GState.playing →
        (spawnBubble idx t s).bubbleIdCounter = s.bubbleIdCounter + 1) := by
  obtain ⟨-, -, -, -, -, h6, -⟩ := reachable_inv s hr
  refine ⟨h6, fun i => countP_le_one_of_pairwise_ne s.bubbles h6 i,
    fun i => filter_ne_length_ge s.bubbles h6 i, ?_⟩
  intro idx t hg
  unfold spawnBubble
  rw [if_neg (by simp [hg])]

/-- Witness for C10 at a reachable state holding two spawned bubbles. -/
theorem bubble_ids_distinct_witness :
    (run [Ev.start, Ev.spawn firstItemIdx 0, Ev.spawn firstItemIdx 0]).bubbles.Pairwise
      (fun a b => a.id ≠ b.id)
    ∧ (run [Ev.start, Ev.spawn firstItemIdx 0, Ev.spawn firstItemIdx 0]).bubbles.countP
        (fun b => decide (b.id = { counter := 1, time := 0 })) ≤ 1 := by
  have h := bubble_ids_distinct (run [Ev.start, Ev.spawn firstItemIdx 0, Ev.spawn firstItemIdx 0])
    ⟨[Ev.start, Ev.spawn firstItemIdx 0, Ev.spawn firstItemIdx 0], rfl⟩
  exact ⟨h.1, h.2.1 { counter := 1, time := 0 }⟩

end DhanMunch
